import Mathlib

/-!
Verification development for the node-liveosc repository: a shallow
embedding of the state-mirroring engine (Song, Track, Return, Clip,
Device) and its OSC message handlers, with theorems settling the frozen
claims about subscriptions, event emission, structural rebuilds and
outbound commands.

Conventions of the embedding:
  * JavaScript values carried in OSC messages and mirrored fields are
    modelled by `Val` (numbers as rationals, strings, booleans, and
    `undefined`).  Message-argument reads past the end of the argument
    list yield `Val.undef`, as reading a missing JS `arguments[i]` does.
  * Each inbound listener becomes a pure function from the entity state
    and the message arguments to the new state plus the events it emits
    (and, where the source also sends requests, the outbound messages).
  * Node `EventEmitter` invokes a plain-function listener with `this`
    bound to the emitter (the OSC receiver), not to the entity.  Where a
    listener in the source writes through `this` instead of the captured
    `self`, the write lands on the receiver object and is embedded as a
    no-op on the entity state; each such spot is marked by a comment.
  * The two-tier observer model is embedded by `emitPair`: every
    `emitEvent` call yields one `Tier.localE` event (the entity emitter)
    and one `Tier.globalE` event (the song-wide sink) whose name is
    prefixed by the entity kind.
  * Subscription lifecycle is embedded per entity as the list of
    addresses registered at construction and the list of addresses whose
    listener `destroy` removes; `remainingSubs` is what stays subscribed
    after `destroy`, and `Return.deliver` runs a message against a
    return only when its address is still subscribed.
-/

/-- A JavaScript value as it appears in OSC message arguments and in the
mirrored entity fields: a number (modelled as a rational), a string, a
boolean, or `undefined`. -/
inductive Val where
  | num (q : ℚ)
  | str (s : String)
  | bool (b : Bool)
  | undef
deriving DecidableEq

/-- Read of `arguments[i]`: the i-th message argument, `undefined` when
the message is shorter. -/
def argv (l : List Val) (i : Nat) : Val :=
  l.getD i Val.undef

/-- One outbound typed argument as the source builds it:
`{type: ..., value: ...}`. -/
structure OscArg where
  tag : String
  value : Val
deriving DecidableEq

/-- An outbound message handed to the transport emitter. -/
structure OutMsg where
  addr : String
  args : List OscArg
deriving DecidableEq

/-- An inbound message as the receiver delivers it: an address and the
flat positional argument list. -/
structure OscMsg where
  addr : String
  args : List Val
deriving DecidableEq

/-- Which sink an event is emitted on: the entity-local emitter or the
song-wide global sink. -/
inductive Tier where
  | localE
  | globalE
deriving DecidableEq

/-- One emitted event: its sink, its event name, and its payload object
as an ordered field list. -/
structure Event where
  tier : Tier
  name : String
  payload : List (String × Val)
deriving DecidableEq

/-- The two-tier `emitEvent` used by Track, Return and Clip: emit on the
entity emitter, then re-emit on the song sink under `kind:name` with the
identifying fields prepended (`_.extend({id: ...}, params)`). -/
def emitPair (kind : String) (idFields : List (String × Val)) (ev : String)
    (payload : List (String × Val)) : List Event :=
  [⟨Tier.localE, ev, payload⟩, ⟨Tier.globalE, kind ++ ":" ++ ev, idFields ++ payload⟩]

/-- Sparse-array read `l[k]` with a default for a missing entry. -/
def aGet {α : Type} (dflt : α) : List (Val × α) → Val → α
  | [], _ => dflt
  | e :: rest, k => if e.1 = k then e.2 else aGet dflt rest k

/-- Sparse-array write `l[k] = v`: replace the entry at key `k` or append
a fresh one. -/
def aSet {α : Type} (l : List (Val × α)) (k : Val) (v : α) : List (Val × α) :=
  match l with
  | [] => [(k, v)]
  | e :: rest => if e.1 = k then (k, v) :: rest else e :: aSet rest k v

/-- Iteration count of a JS `for (var i = 0; i < n; i++)` loop whose
bound is a mirrored numeric value: the number of naturals below `n`
(zero for a non-numeric bound, whose comparison is never true). -/
def loopCount : Val → Nat
  | Val.num q => if q ≤ 0 then 0 else q.ceil.toNat
  | _ => 0

/-- JS truthiness of a mirrored value. -/
def truthy : Val → Bool
  | Val.num q => decide (q ≠ 0)
  | Val.str s => decide (s ≠ "")
  | Val.bool b => b
  | Val.undef => false

/-- `v || 0` as the clip pitch listener uses it. -/
def jsOr0 (v : Val) : Val :=
  if truthy v then v else Val.num 0

/-- String coercion for a value used as an event name (`device:` + name).
Only the string case is exercised by the protocol; the numeric rendering
is a stand-in, not the JS formatting. -/
def jsStr : Val → String
  | Val.str s => s
  | Val.num q => toString q
  | Val.bool b => if b then "true" else "false"
  | Val.undef => "undefined"

/-- The tail of a variadic message consumed in stride 2, as the JS loop
`for (i; i < length; i += 2)` reads it: the second component of a lone
trailing element is the `undefined` read past the end. -/
def pairsOf : List Val → List (Val × Val)
  | a :: b :: rest => (a, b) :: pairsOf rest
  | [a] => [(a, Val.undef)]
  | [] => []

/-- The tail of a variadic message consumed in stride 3, with `undefined`
padding for a trailing incomplete group. -/
def triplesOf : List Val → List (Val × Val × Val)
  | a :: b :: c :: rest => (a, b, c) :: triplesOf rest
  | [a, b] => [(a, b, Val.undef)]
  | [a] => [(a, Val.undef, Val.undef)]
  | [] => []

/-- Which subscriptions stay on the receiver after `destroy`: every
registered address whose listener the destroy body also removes is gone,
anything else keeps its listener. -/
def remainingSubs (regs removals : List String) : List String :=
  regs.filter (fun a => !(removals.contains a))

/-! ## Device (src/lib/device.js)

A device on a track, a return, or the master channel, owning a sparse
parameter table.  The sparse JS array `this.params` is embedded as an
association list from the parameter index value to its entry. -/

/-- One entry of the device parameter table.  A fresh entry is the empty
object `{}`: every field still `undefined`. -/
structure ParamEntry where
  pid : Val
  pvalue : Val
  pname : Val
  pmin : Val
  pmax : Val
deriving DecidableEq

/-- The freshly created parameter entry `self.params[i] = {}`. -/
def ParamEntry.empty : ParamEntry :=
  ⟨Val.undef, Val.undef, Val.undef, Val.undef, Val.undef⟩

/-- Mirrored state of one Device.  `trackId` embeds the back-reference
`this.track.id` (for a master device the back-reference is the Song and
is never read by a listener, so the field is a dummy 0).  `destroyed`
records whether `destroy()` has run, i.e. whether the listeners of this
instance have been removed from the receiver. -/
structure DeviceState where
  id : Val
  name : Val
  trackId : ℚ
  type : String
  params : List (Val × ParamEntry)
  destroyed : Bool
deriving DecidableEq

/-- `infoAddr` as the constructor computes it from the track type. -/
def Device.infoAddr (typ : String) : String :=
  if typ = "track" then "/live/device" else "/live/" ++ typ ++ "/device"

/-- `rangeAddr` as the constructor computes it. -/
def Device.rangeAddr (typ : String) : String :=
  if typ = "track" then "/live/device/range" else "/live/" ++ typ ++ "/device/range"

/-- `paramAddr` as the constructor computes it. -/
def Device.paramAddr (typ : String) : String :=
  if typ = "track" then "/live/device/param" else "/live/" ++ typ ++ "/device/param"

/-- `allParamAddr` as the constructor computes it; for a master device it
is overridden to the plain master device address. -/
def Device.allParamAddr (typ : String) : String :=
  if typ = "track" then "/live/device/allparam"
  else if typ = "master" then "/live/master/device"
  else "/live/" ++ typ ++ "/device/allparam"

/-- A newly constructed Device record. -/
def Device.init (trackId : ℚ) (id : Val) (typ : String) (name : Val) : DeviceState :=
  { id := id, name := name, trackId := trackId, type := typ, params := [], destroyed := false }

/-- The identity prefix argument list `[{integer, track.id}?, {integer, id}]`
the constructor and the command methods push: a master device omits the
leading track id. -/
def Device.identArgs (d : DeviceState) : List OscArg :=
  (if d.type ≠ "master" then [⟨"integer", Val.num d.trackId⟩] else []) ++ [⟨"integer", d.id⟩]

/-- The two refresh requests the Device constructor sends: current state
to `infoAddr` and parameter ranges to `rangeAddr`. -/
def Device.initMsgs (trackId : ℚ) (id : Val) (typ : String) : List OutMsg :=
  let idArgs := (if typ ≠ "master" then [⟨"integer", Val.num trackId⟩] else []) ++ [⟨"integer", id⟩]
  [⟨Device.infoAddr typ, idArgs⟩, ⟨Device.rangeAddr typ, idArgs⟩]

/-- The addresses the Device constructor subscribes, in registration
order. -/
def Device.registrations (typ : String) : List String :=
  [Device.rangeAddr typ, Device.allParamAddr typ, Device.paramAddr typ]

/-- The addresses the Device `destroy` body removes its listeners
from. -/
def Device.destroyRemovals (typ : String) : List String :=
  [Device.rangeAddr typ, Device.paramAddr typ, Device.allParamAddr typ]

/-- `destroy()` on a device: the listeners are removed from the receiver
(and the local emitter cleared); embedded as marking the record
destroyed. -/
def Device.destroy (d : DeviceState) : DeviceState :=
  { d with destroyed := true }

/-- `emitEvent` of a Device: local event, then a global `device:`-named
event carrying id and type, with the parent track id appended after the
payload for a non-master device. -/
def Device.emitEvent (d : DeviceState) (ev : String)
    (payload : List (String × Val)) : List Event :=
  let gp := [("id", d.id), ("type", Val.str d.type)] ++ payload ++
    (if d.type ≠ "master" then [("trackId", Val.num d.trackId)] else [])
  [⟨Tier.localE, ev, payload⟩, ⟨Tier.globalE, "device:" ++ ev, gp⟩]

/-- The identity filter shared by the three device listeners: for a
non-master device shift and check the leading track id, then shift and
check the device id; `none` means the listener returns without effect. -/
def Device.stripIdent (d : DeviceState) (args : List Val) : Option (List Val) :=
  let afterTrack : Option (List Val) :=
    if d.type = "master" then some args
    else if argv args 0 = Val.num d.trackId then some (args.drop 1) else none
  match afterTrack with
  | none => none
  | some rest => if argv rest 0 = d.id then some (rest.drop 1) else none

/-- The body of one stride of the `/live/device/range` loop: lazily
create the entry at the index, then store min and max. -/
def Device.rangeStep (d : DeviceState) (tr : Val × Val × Val) : DeviceState :=
  let param := aGet ParamEntry.empty d.params tr.1
  let param2 := { param with pmin := tr.2.1, pmax := tr.2.2 }
  { d with params := aSet d.params tr.1 param2 }

/-- The `/live/device/range` loop over `index,min,max` triples. -/
def Device.rangeLoop : DeviceState → List (Val × Val × Val) → DeviceState
  | d, [] => d
  | d, tr :: rest => Device.rangeLoop (Device.rangeStep d tr) rest

/-- `rangeListener`: identity filter, then consume the tail in stride 3,
emitting nothing. -/
def Device.rangeListener (d : DeviceState) (args : List Val) : DeviceState :=
  match Device.stripIdent d args with
  | none => d
  | some rest => Device.rangeLoop d (triplesOf rest)

/-- The body of one stride of the `/live/device/allparam` loop: lazily
create the entry, emit the generic `param` event and the named event
only when the stored value differs from the received one, then store
id, value and name. -/
def Device.allParamStep (d : DeviceState) (tr : Val × Val × Val) :
    DeviceState × List Event :=
  let param := aGet ParamEntry.empty d.params tr.1
  let evs :=
    if param.pvalue ≠ tr.2.1 then
      Device.emitEvent d ("param")
        [("name", tr.2.2), ("value", tr.2.1), ("prev", param.pvalue)] ++
      Device.emitEvent d (jsStr tr.2.2)
        [("value", tr.2.1), ("prev", param.pvalue)]
    else []
  let param2 := { param with pid := tr.1, pvalue := tr.2.1, pname := tr.2.2 }
  ({ d with params := aSet d.params tr.1 param2 }, evs)

/-- The `/live/device/allparam` loop over `index,value,name` triples. -/
def Device.allParamLoop : DeviceState → List (Val × Val × Val) → DeviceState × List Event
  | d, [] => (d, [])
  | d, tr :: rest =>
    let step := Device.allParamStep d tr
    let next := Device.allParamLoop step.1 rest
    (next.1, step.2 ++ next.2)

/-- `allParamListener`: identity filter, then the stride-3 loop. -/
def Device.allParamListener (d : DeviceState) (args : List Val) :
    DeviceState × List Event :=
  match Device.stripIdent d args with
  | none => (d, [])
  | some rest => Device.allParamLoop d (triplesOf rest)

/-- `paramListener`: identity filter, then a single `index,value,name`
update taken from the first three remaining arguments, emitting the
generic `param` event and the named event unconditionally. -/
def Device.paramListener (d : DeviceState) (args : List Val) :
    DeviceState × List Event :=
  match Device.stripIdent d args with
  | none => (d, [])
  | some rest =>
    let i := argv rest 0
    let v := argv rest 1
    let nm := argv rest 2
    let param := aGet ParamEntry.empty d.params i
    let evs :=
      Device.emitEvent d ("param") [("name", nm), ("value", v), ("prev", param.pvalue)] ++
      Device.emitEvent d (jsStr nm) [("value", v), ("prev", param.pvalue)]
    let param2 := { param with pid := i, pvalue := v, pname := nm }
    ({ d with params := aSet d.params i param2 }, evs)

/-- The command address `Device.prototype.set` builds from the type. -/
def Device.setAddr (typ : String) : String :=
  if typ = "track" then "/live/device" else "/live/" ++ typ ++ "/device"

/-- `Device.prototype.set`: resolve a string parameter name against the
parameter table (first entry whose name matches, in insertion order) and
fail without sending when unresolved; otherwise send one message with
the identity prefix, the (resolved) parameter id and the value.  The
result is the unchanged state, the sent messages, and the thrown error
message if any. -/
def Device.set (d : DeviceState) (param : Val) (value : Val) :
    DeviceState × List OutMsg × Option String :=
  match param with
  | Val.str s =>
    match d.params.find? (fun e => decide (e.2.pname = Val.str s)) with
    | some e =>
      (d, [⟨Device.setAddr d.type,
        Device.identArgs d ++ [⟨"integer", e.2.pid⟩, ⟨"integer", value⟩]⟩], none)
    | none => (d, [], some ("No parameter with name " ++ s))
  | p =>
    (d, [⟨Device.setAddr d.type,
      Device.identArgs d ++ [⟨"integer", p⟩, ⟨"integer", value⟩]⟩], none)

/-- `Device.prototype.view`: focus the device.  For a non-master device
the argument list is the device id pushed twice (the source pushes
`this.id` both times, not the parent track id); a master device sends a
single device id. -/
def Device.view (d : DeviceState) : OutMsg :=
  ⟨"/live/" ++ d.type ++ "/device/view",
    (if d.type ≠ "master" then [⟨"integer", d.id⟩] else []) ++ [⟨"integer", d.id⟩]⟩

/-! ## Clip (src/lib/clip.js)

A clip in one track/scene slot.  The back-reference `this.track` is
embedded by the parent track id (`trackId`); where a method reads
`this.track.audio`, the current value is passed in explicitly. -/

/-- Mirrored state of one Clip.  `name` is initialised to the JS boolean
`false`, every numeric field to 0. -/
structure ClipState where
  id : ℚ
  trackId : ℚ
  name : Val
  state : Val
  coarse : Val
  fine : Val
  loopstart : Val
  loopend : Val
  loopstate : Val
  warping : Val
  length : Val
deriving DecidableEq

/-- A newly constructed Clip record (`new Clip(liveosc, track, id)`). -/
def Clip.init (trackId : ℚ) (id : ℚ) : ClipState :=
  { id := id, trackId := trackId, name := Val.bool false, state := Val.num 0,
    coarse := Val.num 0, fine := Val.num 0, loopstart := Val.num 0,
    loopend := Val.num 0, loopstate := Val.num 0, warping := Val.num 0,
    length := Val.num 0 }

/-- `emitEvent` of a Clip: local event, then the global `clip:`-named
event carrying the clip id and its track id. -/
def Clip.emitEvent (c : ClipState) (ev : String)
    (payload : List (String × Val)) : List Event :=
  emitPair ("clip") [("id", Val.num c.id), ("trackId", Val.num c.trackId)] ev payload

/-- The two-stage identity filter of every clip listener: the leading
track id, then the clip id. -/
def Clip.matches (c : ClipState) (trackId clipId : Val) : Bool :=
  decide (trackId = Val.num c.trackId) && decide (clipId = Val.num c.id)

/-- `loopstartListener` for `/live/clip/loopstart`: emit with the stored
value as prev, then store. -/
def Clip.loopstartListener (c : ClipState) (trackId clipId loopstart : Val) :
    ClipState × List Event :=
  if Clip.matches c trackId clipId then
    ({ c with loopstart := loopstart },
     Clip.emitEvent c ("loopstart") [("value", loopstart), ("prev", c.loopstart)])
  else (c, [])

/-- `loopendListener` for `/live/clip/loopend`. -/
def Clip.loopendListener (c : ClipState) (trackId clipId loopend : Val) :
    ClipState × List Event :=
  if Clip.matches c trackId clipId then
    ({ c with loopend := loopend },
     Clip.emitEvent c ("loopend") [("value", loopend), ("prev", c.loopend)])
  else (c, [])

/-- `loopstateListener` for `/live/clip/loopstate`. -/
def Clip.loopstateListener (c : ClipState) (trackId clipId loopstate : Val) :
    ClipState × List Event :=
  if Clip.matches c trackId clipId then
    ({ c with loopstate := loopstate },
     Clip.emitEvent c ("loopstate") [("value", loopstate), ("prev", c.loopstate)])
  else (c, [])

/-- `warpingListener` for `/live/clip/warping`. -/
def Clip.warpingListener (c : ClipState) (trackId clipId warping : Val) :
    ClipState × List Event :=
  if Clip.matches c trackId clipId then
    ({ c with warping := warping },
     Clip.emitEvent c ("warping") [("value", warping), ("prev", c.warping)])
  else (c, [])

/-- `pitchListener` for `/live/pitch`: one event for the coarse pitch and
one for the fine pitch, then store both with the `|| 0` fallback. -/
def Clip.pitchListener (c : ClipState) (trackId clipId coarse fine : Val) :
    ClipState × List Event :=
  if Clip.matches c trackId clipId then
    ({ c with coarse := jsOr0 coarse, fine := jsOr0 fine },
     Clip.emitEvent c ("coarse") [("value", coarse), ("prev", c.coarse)] ++
     Clip.emitEvent c ("fine") [("value", fine), ("prev", c.fine)])
  else (c, [])

/-- `Clip.prototype.refresh`: request loop points, for an audio track
also warping and pitch, and the clip name while it is still the initial
`false`.  No mirrored field changes. -/
def Clip.refresh (c : ClipState) (trackAudio : Val) : List OutMsg :=
  let trackArg : OscArg := ⟨"integer", Val.num c.trackId⟩
  let clipArg : OscArg := ⟨"integer", Val.num c.id⟩
  [⟨"/live/clip/loopstart", [trackArg, clipArg]⟩,
   ⟨"/live/clip/loopend", [trackArg, clipArg]⟩,
   ⟨"/live/clip/loopstate", [trackArg, clipArg]⟩] ++
  (if truthy trackAudio then
    [⟨"/live/clip/warping", [trackArg, clipArg]⟩,
     ⟨"/live/pitch", [trackArg, clipArg]⟩]
   else []) ++
  (if c.name = Val.bool false then [⟨"/live/name/clip", [trackArg, clipArg]⟩] else [])

/-- `clipinfoListener` for `/live/clip/info`: emit the state change, store
state and length, then refresh the leaf state for a non-empty slot or
blank the name of an empty one. -/
def Clip.clipinfoListener (c : ClipState) (trackAudio : Val)
    (trackId clipId state length : Val) : ClipState × List Event × List OutMsg :=
  if Clip.matches c trackId clipId then
    let evs := Clip.emitEvent c ("state") [("value", state), ("prev", c.state)]
    let c1 := { c with state := state, length := length }
    if (match state with | Val.num q => decide (0 < q) | _ => false) then
      (c1, evs, Clip.refresh c1 trackAudio)
    else
      ({ c1 with name := Val.str "" }, evs, [])
  else (c, [], [])

/-- `clipnameListener` for `/live/name/clip`: emit the name change, store
it, then re-request the clip info for this slot (the message also fires
when clips are added or deleted). -/
def Clip.clipnameListener (c : ClipState) (trackId clipId name : Val) :
    ClipState × List Event × List OutMsg :=
  if Clip.matches c trackId clipId then
    ({ c with name := name },
     Clip.emitEvent c ("name") [("value", name), ("prev", c.name)],
     [⟨"/live/clip/info", [⟨"integer", Val.num c.trackId⟩, ⟨"integer", Val.num c.id⟩]⟩])
  else (c, [], [])

/-- The addresses the Clip constructor subscribes, in registration
order. -/
def Clip.registrations : List String :=
  ["/live/clip/loopstart", "/live/clip/loopend", "/live/clip/loopstate",
   "/live/clip/warping", "/live/pitch", "/live/clip/info", "/live/name/clip"]

/-- The addresses the Clip `destroy` body removes its listeners from. -/
def Clip.destroyRemovals : List String :=
  ["/live/clip/loopstart", "/live/clip/loopend", "/live/clip/loopstate",
   "/live/clip/warping", "/live/pitch", "/live/clip/info", "/live/name/clip"]

/-- `Clip.prototype.play`: trigger the clip slot. -/
def Clip.play (c : ClipState) : ClipState × List OutMsg :=
  (c, [⟨"/live/play/clipslot",
    [⟨"integer", Val.num c.trackId⟩, ⟨"integer", Val.num c.id⟩]⟩])

/-- `Clip.prototype.stop`: stop the clip. -/
def Clip.stop (c : ClipState) : ClipState × List OutMsg :=
  (c, [⟨"/live/stop/clip",
    [⟨"integer", Val.num c.trackId⟩, ⟨"integer", Val.num c.id⟩]⟩])

/-- `Clip.prototype.setName`. -/
def Clip.setName (c : ClipState) (name : Val) : ClipState × List OutMsg :=
  (c, [⟨"/live/name/clip",
    [⟨"integer", Val.num c.trackId⟩, ⟨"integer", Val.num c.id⟩, ⟨"string", name⟩]⟩])

/-- `Clip.prototype.setPitch`: a no-op send for a non-audio track,
otherwise one message with coarse and the `|| 0`-defaulted fine pitch. -/
def Clip.setPitch (c : ClipState) (trackAudio : Val) (coarse fine : Val) :
    ClipState × List OutMsg :=
  if truthy trackAudio then
    (c, [⟨"/live/pitch",
      [⟨"integer", Val.num c.trackId⟩, ⟨"integer", Val.num c.id⟩,
       ⟨"integer", coarse⟩, ⟨"integer", jsOr0 fine⟩]⟩])
  else (c, [])

/-- `Clip.prototype.setLoopstart`. -/
def Clip.setLoopstart (c : ClipState) (loopstart : Val) : ClipState × List OutMsg :=
  (c, [⟨"/live/clip/loopstart",
    [⟨"integer", Val.num c.trackId⟩, ⟨"integer", Val.num c.id⟩, ⟨"integer", loopstart⟩]⟩])

/-- `Clip.prototype.setLoopend`. -/
def Clip.setLoopend (c : ClipState) (loopend : Val) : ClipState × List OutMsg :=
  (c, [⟨"/live/clip/loopend",
    [⟨"integer", Val.num c.trackId⟩, ⟨"integer", Val.num c.id⟩, ⟨"integer", loopend⟩]⟩])

/-- `Clip.prototype.setLoopstate`. -/
def Clip.setLoopstate (c : ClipState) (loopstate : Val) : ClipState × List OutMsg :=
  (c, [⟨"/live/clip/loopstate",
    [⟨"integer", Val.num c.trackId⟩, ⟨"integer", Val.num c.id⟩, ⟨"integer", loopstate⟩]⟩])

/-- `Clip.prototype.setWarping`. -/
def Clip.setWarping (c : ClipState) (warping : Val) : ClipState × List OutMsg :=
  (c, [⟨"/live/clip/warping",
    [⟨"integer", Val.num c.trackId⟩, ⟨"integer", Val.num c.id⟩, ⟨"integer", warping⟩]⟩])

/-- `Clip.prototype.view`: focus the clip (only the clip id is sent). -/
def Clip.view (c : ClipState) : ClipState × List OutMsg :=
  (c, [⟨"/live/clip/view", [⟨"integer", Val.num c.id⟩]⟩])

/-! ## Track (src/lib/track.js)

An audio or midi track owning clips and devices and mirroring mixer
state. -/

/-- Mirrored state of one Track. -/
structure TrackState where
  id : ℚ
  name : Val
  clips : List ClipState
  sends : List (Val × Val)
  devices : List DeviceState
  audio : Val
  solo : Val
  mute : Val
  arm : Val
  volume : Val
  pan : Val
  numScenes : Val
deriving DecidableEq

/-- A newly constructed Track record (`new Track(liveosc, id)`). -/
def Track.init (id : ℚ) : TrackState :=
  { id := id, name := Val.str "", clips := [], sends := [], devices := [],
    audio := Val.num 0, solo := Val.num 0, mute := Val.num 0, arm := Val.num 0,
    volume := Val.num 0, pan := Val.num 0, numScenes := Val.num 0 }

/-- The two state requests the Track constructor sends. -/
def Track.initMsgs (id : ℚ) : List OutMsg :=
  [⟨"/live/name/track", [⟨"integer", Val.num id⟩]⟩,
   ⟨"/live/send", [⟨"integer", Val.num id⟩]⟩]

/-- `emitEvent` of a Track: local event, then the global `track:`-named
event with the track id prepended. -/
def Track.emitEvent (t : TrackState) (ev : String)
    (payload : List (String × Val)) : List Event :=
  emitPair ("track") [("id", Val.num t.id)] ev payload

/-- The `/live/send` loop body over `sendNum,sendVal` pairs: emit with
the stored level as prev, then store the new level. -/
def Track.sendLoop : TrackState → List (Val × Val) → TrackState × List Event
  | t, [] => (t, [])
  | t, (n, v) :: rest =>
    let evs := Track.emitEvent t ("send")
      [("num", n), ("value", v), ("prev", aGet Val.undef t.sends n)]
    let next := Track.sendLoop ({ t with sends := aSet t.sends n v }) rest
    (next.1, evs ++ next.2)

/-- `sendListener` for `/live/send`: identity filter on the leading track
id, then the stride-2 loop. -/
def Track.sendListener (t : TrackState) (args : List Val) : TrackState × List Event :=
  match args with
  | [] => (t, [])
  | trackId :: rest =>
    if trackId = Val.num t.id then Track.sendLoop t (pairsOf rest) else (t, [])

/-- `soloListener` for `/live/solo`: emit with the stored value as prev,
then store. -/
def Track.soloListener (t : TrackState) (trackId solo : Val) : TrackState × List Event :=
  if trackId = Val.num t.id then
    ({ t with solo := solo },
     Track.emitEvent t ("solo") [("value", solo), ("prev", t.solo)])
  else (t, [])

/-- `armListener` for `/live/arm`. -/
def Track.armListener (t : TrackState) (trackId arm : Val) : TrackState × List Event :=
  if trackId = Val.num t.id then
    ({ t with arm := arm },
     Track.emitEvent t ("arm") [("value", arm), ("prev", t.arm)])
  else (t, [])

/-- `muteListener` for `/live/mute`. -/
def Track.muteListener (t : TrackState) (trackId mute : Val) : TrackState × List Event :=
  if trackId = Val.num t.id then
    ({ t with mute := mute },
     Track.emitEvent t ("mute") [("value", mute), ("prev", t.mute)])
  else (t, [])

/-- `volumeListener` for `/live/volume`: emit first (prev is the stored
volume), then store the new volume. -/
def Track.volumeListener (t : TrackState) (trackId volume : Val) : TrackState × List Event :=
  if trackId = Val.num t.id then
    ({ t with volume := volume },
     Track.emitEvent t ("volume") [("value", volume), ("prev", t.volume)])
  else (t, [])

/-- `panListener` for `/live/pan`. -/
def Track.panListener (t : TrackState) (trackId pan : Val) : TrackState × List Event :=
  if trackId = Val.num t.id then
    ({ t with pan := pan },
     Track.emitEvent t ("pan") [("value", pan), ("prev", t.pan)])
  else (t, [])

/-- `Track.prototype.refreshClips`: destroy every clip, then create one
fresh Clip per scene and request its info. -/
def Track.refreshClips (t : TrackState) : TrackState × List OutMsg :=
  let n := loopCount t.numScenes
  let clips := (List.range n).map (fun i => Clip.init t.id (i : ℚ))
  let reqs := (List.range n).map (fun i =>
    (⟨"/live/clip/info", [⟨"integer", Val.num t.id⟩, ⟨"integer", Val.num (i : ℚ)⟩]⟩ : OutMsg))
  ({ t with clips := clips }, reqs)

/-- `trackinfoListener` for `/live/track/info`.  The source assigns
`self.arm`, `self.solo`, `self.mute` and `self.audio` BEFORE the emits,
so those events carry the new value as `prev`; `this.volume = volume`
and `this.pan = pan` write to the listener receiver, not the track, so
the mirrored volume and pan stay unchanged (their events carry the old
stored value as prev).  No event is emitted for `audio`.  Finally the
clip list is refreshed. -/
def Track.trackinfoListener (t : TrackState)
    (trackId arm solo mute audio volume pan : Val) :
    TrackState × List Event × List OutMsg :=
  if trackId = Val.num t.id then
    let t1 := { t with arm := arm, solo := solo, mute := mute, audio := audio }
    let evs :=
      Track.emitEvent t1 ("arm") [("value", arm), ("prev", t1.arm)] ++
      Track.emitEvent t1 ("solo") [("value", solo), ("prev", t1.solo)] ++
      Track.emitEvent t1 ("mute") [("value", mute), ("prev", t1.mute)] ++
      Track.emitEvent t1 ("volume") [("value", volume), ("prev", t1.volume)] ++
      Track.emitEvent t1 ("pan") [("value", pan), ("prev", t1.pan)]
    let refreshed := Track.refreshClips t1
    (refreshed.1, evs, refreshed.2)
  else (t, [], [])

/-- `devicelistListener` for `/live/devicelist`.  In the source the
refresh loop iterates `this.devices` and clears `this.devices`, but
`this` is the receiver, not the track: the existing devices of the track
are neither destroyed nor removed, and the freshly constructed devices
are pushed onto `self.devices` behind them.  Each new Device sends its
two constructor requests. -/
def Track.devicelistListener (t : TrackState) (args : List Val) :
    TrackState × List OutMsg :=
  match args with
  | [] => (t, [])
  | trackId :: rest =>
    if trackId = Val.num t.id then
      let entries := pairsOf rest
      ({ t with devices :=
          t.devices ++ entries.map (fun p => Device.init t.id p.1 ("track") p.2) },
       (entries.map (fun p => Device.initMsgs t.id p.1 ("track"))).flatten)
    else (t, [])

/-- `nameListener` for `/live/name/track`: emit and store the name,
request the scene count, destroy and clear the devices, then re-request
the track info and the device list (this message also fires when clips
or devices change). -/
def Track.nameListener (t : TrackState) (trackId name : Val) :
    TrackState × List Event × List OutMsg :=
  if trackId = Val.num t.id then
    ({ t with name := name, devices := [] },
     Track.emitEvent t ("name") [("value", name), ("prev", t.name)],
     [⟨"/live/scenes", []⟩,
      ⟨"/live/track/info", [⟨"integer", Val.num t.id⟩]⟩,
      ⟨"/live/devicelist", [⟨"integer", Val.num t.id⟩]⟩])
  else (t, [], [])

/-- The addresses the Track constructor subscribes, in registration
order. -/
def Track.registrations : List String :=
  ["/live/send", "/live/solo", "/live/arm", "/live/mute", "/live/pan",
   "/live/volume", "/live/track/info", "/live/devicelist", "/live/name/track"]

/-- The addresses the Track `destroy` body removes its listeners from. -/
def Track.destroyRemovals : List String :=
  ["/live/send", "/live/solo", "/live/arm", "/live/mute", "/live/pan",
   "/live/volume", "/live/track/info", "/live/devicelist", "/live/name/track"]

/-- `Track.prototype.setName`. -/
def Track.setName (t : TrackState) (name : Val) : TrackState × List OutMsg :=
  (t, [⟨"/live/name/track", [⟨"integer", Val.num t.id⟩, ⟨"string", name⟩]⟩])

/-- `Track.prototype.setArm`. -/
def Track.setArm (t : TrackState) (arm : Val) : TrackState × List OutMsg :=
  (t, [⟨"/live/arm", [⟨"integer", Val.num t.id⟩, ⟨"integer", arm⟩]⟩])

/-- `Track.prototype.setSolo`. -/
def Track.setSolo (t : TrackState) (solo : Val) : TrackState × List OutMsg :=
  (t, [⟨"/live/solo", [⟨"integer", Val.num t.id⟩, ⟨"integer", solo⟩]⟩])

/-- `Track.prototype.setMute`. -/
def Track.setMute (t : TrackState) (mute : Val) : TrackState × List OutMsg :=
  (t, [⟨"/live/mute", [⟨"integer", Val.num t.id⟩, ⟨"integer", mute⟩]⟩])

/-- `Track.prototype.setVolume`. -/
def Track.setVolume (t : TrackState) (volume : Val) : TrackState × List OutMsg :=
  (t, [⟨"/live/volume", [⟨"integer", Val.num t.id⟩, ⟨"float", volume⟩]⟩])

/-- `Track.prototype.setPan`. -/
def Track.setPan (t : TrackState) (pan : Val) : TrackState × List OutMsg :=
  (t, [⟨"/live/pan", [⟨"integer", Val.num t.id⟩, ⟨"float", pan⟩]⟩])

/-- `Track.prototype.setSend`. -/
def Track.setSend (t : TrackState) (send val : Val) : TrackState × List OutMsg :=
  (t, [⟨"/live/send",
    [⟨"integer", Val.num t.id⟩, ⟨"integer", send⟩, ⟨"float", val⟩]⟩])

/-- `Track.prototype.view`: focus the track. -/
def Track.view (t : TrackState) : TrackState × List OutMsg :=
  (t, [⟨"/live/track/view", [⟨"integer", Val.num t.id⟩]⟩])

/-! ## Return (src/unnamed/part_000, lib/return.js)

A return track: like a Track without clips.  Two listeners differ from
the Track versions: `volumeListener` and `panListener` store the new
value BEFORE emitting, and `infoListener` and `devicelistListener` carry
the same receiver-`this` slips as the Track info/devicelist listeners
(and the devicelist listener has no refresh loop at all). -/

/-- Mirrored state of one Return. -/
structure ReturnState where
  id : ℚ
  name : Val
  solo : Val
  mute : Val
  volume : Val
  pan : Val
  devices : List DeviceState
  sends : List (Val × Val)
deriving DecidableEq

/-- A newly constructed Return record (`new Return(liveosc, id)`). -/
def Return.init (id : ℚ) : ReturnState :=
  { id := id, name := Val.str "", solo := Val.num 0, mute := Val.num 0,
    volume := Val.num 0, pan := Val.num 0, devices := [], sends := [] }

/-- The two state requests the Return constructor sends. -/
def Return.initMsgs (id : ℚ) : List OutMsg :=
  [⟨"/live/return/send", [⟨"integer", Val.num id⟩]⟩,
   ⟨"/live/name/return", [⟨"integer", Val.num id⟩]⟩]

/-- `emitEvent` of a Return: local event, then the global
`return:`-named event with the return id prepended. -/
def Return.emitEvent (r : ReturnState) (ev : String)
    (payload : List (String × Val)) : List Event :=
  emitPair ("return") [("id", Val.num r.id)] ev payload

/-- The `/live/return/send` loop body, identical in shape to the track
one: emit with the stored level as prev, then store. -/
def Return.sendLoop : ReturnState → List (Val × Val) → ReturnState × List Event
  | r, [] => (r, [])
  | r, (n, v) :: rest =>
    let evs := Return.emitEvent r ("send")
      [("num", n), ("value", v), ("prev", aGet Val.undef r.sends n)]
    let next := Return.sendLoop ({ r with sends := aSet r.sends n v }) rest
    (next.1, evs ++ next.2)

/-- `sendListener` for `/live/return/send`. -/
def Return.sendListener (r : ReturnState) (args : List Val) : ReturnState × List Event :=
  match args with
  | [] => (r, [])
  | trackId :: rest =>
    if trackId = Val.num r.id then Return.sendLoop r (pairsOf rest) else (r, [])

/-- `soloListener` for `/live/return/solo`: emit with the stored value as
prev, then store. -/
def Return.soloListener (r : ReturnState) (trackId solo : Val) : ReturnState × List Event :=
  if trackId = Val.num r.id then
    ({ r with solo := solo },
     Return.emitEvent r ("solo") [("value", solo), ("prev", r.solo)])
  else (r, [])

/-- `muteListener` for `/live/return/mute`. -/
def Return.muteListener (r : ReturnState) (trackId mute : Val) : ReturnState × List Event :=
  if trackId = Val.num r.id then
    ({ r with mute := mute },
     Return.emitEvent r ("mute") [("value", mute), ("prev", r.mute)])
  else (r, [])

/-- `volumeListener` for `/live/return/volume`.  The source assigns
`self.volume = volume` BEFORE emitting, so the event reads `prev` from
the already-updated field: prev always equals the new value. -/
def Return.volumeListener (r : ReturnState) (trackId volume : Val) : ReturnState × List Event :=
  if trackId = Val.num r.id then
    let r1 := { r with volume := volume }
    (r1, Return.emitEvent r1 ("volume") [("value", volume), ("prev", r1.volume)])
  else (r, [])

/-- `panListener` for `/live/return/pan`: same update-before-emit shape
as the return volume listener. -/
def Return.panListener (r : ReturnState) (trackId pan : Val) : ReturnState × List Event :=
  if trackId = Val.num r.id then
    let r1 := { r with pan := pan }
    (r1, Return.emitEvent r1 ("pan") [("value", pan), ("prev", r1.pan)])
  else (r, [])

/-- `infoListener` for `/live/return/info`.  `self.solo` and `self.mute`
are assigned before the emits (prev equals the new value);
`this.volume = volume` and `this.pan = pan` write to the listener
receiver, so the mirrored volume and pan stay unchanged while their
events carry the old stored value as prev. -/
def Return.infoListener (r : ReturnState) (trackId solo mute volume pan : Val) :
    ReturnState × List Event :=
  if trackId = Val.num r.id then
    let r1 := { r with solo := solo, mute := mute }
    (r1,
     Return.emitEvent r1 ("solo") [("value", solo), ("prev", r1.solo)] ++
     Return.emitEvent r1 ("mute") [("value", mute), ("prev", r1.mute)] ++
     Return.emitEvent r1 ("volume") [("value", volume), ("prev", r1.volume)] ++
     Return.emitEvent r1 ("pan") [("value", pan), ("prev", r1.pan)])
  else (r, [])

/-- `devicelistListener` for `/live/return/devicelist`: after the
identity filter the new devices are pushed onto `self.devices`; no
existing device is destroyed or removed first. -/
def Return.devicelistListener (r : ReturnState) (args : List Val) :
    ReturnState × List OutMsg :=
  match args with
  | [] => (r, [])
  | trackId :: rest =>
    if trackId = Val.num r.id then
      let entries := pairsOf rest
      ({ r with devices :=
          r.devices ++ entries.map (fun p => Device.init r.id p.1 ("return") p.2) },
       (entries.map (fun p => Device.initMsgs r.id p.1 ("return"))).flatten)
    else (r, [])

/-- `nameListener` for `/live/name/return`: emit and store the name,
request the scene count, destroy and clear the devices, then re-request
the return info and the device list. -/
def Return.nameListener (r : ReturnState) (trackId name : Val) :
    ReturnState × List Event × List OutMsg :=
  if trackId = Val.num r.id then
    ({ r with name := name, devices := [] },
     Return.emitEvent r ("name") [("value", name), ("prev", r.name)],
     [⟨"/live/scenes", []⟩,
      ⟨"/live/return/info", [⟨"integer", Val.num r.id⟩]⟩,
      ⟨"/live/return/devicelist", [⟨"integer", Val.num r.id⟩]⟩])
  else (r, [], [])

/-- The addresses the Return constructor subscribes, in registration
order. -/
def Return.registrations : List String :=
  ["/live/return/send", "/live/return/solo", "/live/return/mute",
   "/live/return/volume", "/live/return/pan", "/live/return/info",
   "/live/return/devicelist", "/live/name/return"]

/-- The addresses the Return `destroy` body removes its listeners from.
The seventh removal is `"/live/return/devlicelist"` exactly as the
source spells it: no listener is registered at that misspelled address,
so the `removeListener` call is a no-op and the devicelist listener
stays subscribed. -/
def Return.destroyRemovals : List String :=
  ["/live/return/send", "/live/return/solo", "/live/return/mute",
   "/live/return/volume", "/live/return/pan", "/live/return/info",
   "/live/return/devlicelist", "/live/name/return"]

/-- Dispatch of one inbound message to the listeners a Return registers,
by address.  The result is the new state, the emitted events and the
sent requests. -/
def Return.handle (r : ReturnState) (m : OscMsg) : ReturnState × List Event × List OutMsg :=
  match m.addr with
  | "/live/return/send" =>
    let o := Return.sendListener r m.args
    (o.1, o.2, [])
  | "/live/return/solo" =>
    let o := Return.soloListener r (argv m.args 0) (argv m.args 1)
    (o.1, o.2, [])
  | "/live/return/mute" =>
    let o := Return.muteListener r (argv m.args 0) (argv m.args 1)
    (o.1, o.2, [])
  | "/live/return/volume" =>
    let o := Return.volumeListener r (argv m.args 0) (argv m.args 1)
    (o.1, o.2, [])
  | "/live/return/pan" =>
    let o := Return.panListener r (argv m.args 0) (argv m.args 1)
    (o.1, o.2, [])
  | "/live/return/info" =>
    let o := Return.infoListener r (argv m.args 0) (argv m.args 1) (argv m.args 2)
      (argv m.args 3) (argv m.args 4)
    (o.1, o.2, [])
  | "/live/return/devicelist" =>
    let o := Return.devicelistListener r m.args
    (o.1, [], o.2)
  | "/live/name/return" => Return.nameListener r (argv m.args 0) (argv m.args 1)
  | _ => (r, [], [])

/-- Delivery of one message against a Return whose still-subscribed
addresses are `active`: the registered listener runs only while its
address keeps a subscription on the receiver. -/
def Return.deliver (active : List String) (r : ReturnState) (m : OscMsg) :
    ReturnState × List Event × List OutMsg :=
  if active.contains m.addr then Return.handle r m else (r, [], [])

/-- `Return.prototype.setName`. -/
def Return.setName (r : ReturnState) (name : Val) : ReturnState × List OutMsg :=
  (r, [⟨"/live/name/return", [⟨"integer", Val.num r.id⟩, ⟨"string", name⟩]⟩])

/-- `Return.prototype.setSolo`. -/
def Return.setSolo (r : ReturnState) (solo : Val) : ReturnState × List OutMsg :=
  (r, [⟨"/live/return/solo", [⟨"integer", Val.num r.id⟩, ⟨"integer", solo⟩]⟩])

/-- `Return.prototype.setMute`. -/
def Return.setMute (r : ReturnState) (mute : Val) : ReturnState × List OutMsg :=
  (r, [⟨"/live/return/mute", [⟨"integer", Val.num r.id⟩, ⟨"integer", mute⟩]⟩])

/-- `Return.prototype.setVolume`. -/
def Return.setVolume (r : ReturnState) (volume : Val) : ReturnState × List OutMsg :=
  (r, [⟨"/live/return/volume", [⟨"integer", Val.num r.id⟩, ⟨"float", volume⟩]⟩])

/-- `Return.prototype.setPan`. -/
def Return.setPan (r : ReturnState) (pan : Val) : ReturnState × List OutMsg :=
  (r, [⟨"/live/return/pan", [⟨"integer", Val.num r.id⟩, ⟨"float", pan⟩]⟩])

/-- `Return.prototype.setSend`. -/
def Return.setSend (r : ReturnState) (send val : Val) : ReturnState × List OutMsg :=
  (r, [⟨"/live/return/send",
    [⟨"integer", Val.num r.id⟩, ⟨"integer", send⟩, ⟨"float", val⟩]⟩])

/-- `Return.prototype.view`: focus the return. -/
def Return.view (r : ReturnState) : ReturnState × List OutMsg :=
  (r, [⟨"/live/return/view", [⟨"integer", Val.num r.id⟩]⟩])

/-! ## Song (src/lib/device.js second part, lib/song.js)

The orchestrator: owns tracks, returns and master devices, and the
transport-level state.  Song events go directly to the song emitter,
which is also the global sink of the entities, so they are embedded as
single `Tier.globalE` events. -/

/-- Mirrored state of the Song. -/
structure SongState where
  tempo : Val
  tracks : List TrackState
  returns : List ReturnState
  devices : List DeviceState
  volume : Val
  pan : Val
  scene : Val
  beat : Val
  playing : Val
deriving DecidableEq

/-- A song event: emitted once on the song emitter. -/
def Song.emitS (ev : String) (payload : List (String × Val)) : List Event :=
  [⟨Tier.globalE, ev, payload⟩]

/-- `playListener` for `/live/play`: no identity filter; emit with the
stored play state as prev, then store. -/
def Song.playListener (s : SongState) (playing : Val) : SongState × List Event :=
  ({ s with playing := playing },
   Song.emitS ("play") [("value", playing), ("prev", s.playing)])

/-- `beatListener` for `/live/beat`. -/
def Song.beatListener (s : SongState) (beat : Val) : SongState × List Event :=
  ({ s with beat := beat },
   Song.emitS ("beat") [("value", beat), ("prev", s.beat)])

/-- `tempoListener` for `/live/tempo`. -/
def Song.tempoListener (s : SongState) (tempo : Val) : SongState × List Event :=
  ({ s with tempo := tempo },
   Song.emitS ("tempo") [("value", tempo), ("prev", s.tempo)])

/-- `sceneListener` for `/live/scene`. -/
def Song.sceneListener (s : SongState) (scene : Val) : SongState × List Event :=
  ({ s with scene := scene },
   Song.emitS ("scene") [("value", scene), ("prev", s.scene)])

/-- `volumeListener` for `/live/master/volume`. -/
def Song.volumeListener (s : SongState) (volume : Val) : SongState × List Event :=
  ({ s with volume := volume },
   Song.emitS ("volume") [("value", volume), ("prev", s.volume)])

/-- `panListener` for `/live/master/pan`. -/
def Song.panListener (s : SongState) (pan : Val) : SongState × List Event :=
  ({ s with pan := pan },
   Song.emitS ("pan") [("value", pan), ("prev", s.pan)])

/-- `tracksListener` for `/live/tracks`: assign a fresh Track to each
index below the reported count (`self.tracks[i] = new Track(liveosc, i)`
overwrites in place, keeping any entries beyond the count), each new
Track sending its constructor requests, then request the scene count. -/
def Song.tracksListener (s : SongState) (numTracks : Val) : SongState × List OutMsg :=
  let n := loopCount numTracks
  let fresh := (List.range n).map (fun i => Track.init (i : ℚ))
  let out := ((List.range n).map (fun i => Track.initMsgs (i : ℚ))).flatten
  ({ s with tracks := fresh ++ s.tracks.drop n }, out ++ [⟨"/live/scenes", []⟩])

/-- `returnsListener` for `/live/returns`: same in-place overwrite with
fresh Returns. -/
def Song.returnsListener (s : SongState) (numTracks : Val) : SongState × List OutMsg :=
  let n := loopCount numTracks
  let fresh := (List.range n).map (fun i => Return.init (i : ℚ))
  let out := ((List.range n).map (fun i => Return.initMsgs (i : ℚ))).flatten
  ({ s with returns := fresh ++ s.returns.drop n }, out)

/-- `scenesListener` for `/live/scenes`: for every current track, store
the scene count and refresh its clips. -/
def Song.scenesListener (s : SongState) (numScenes : Val) : SongState × List OutMsg :=
  let results := s.tracks.map (fun t => Track.refreshClips ({ t with numScenes := numScenes }))
  ({ s with tracks := results.map (fun o => o.1) },
   (results.map (fun o => o.2)).flatten)

/-- `devicelistListener` for `/live/master/devicelist`: push one fresh
master Device per `id,name` pair onto `self.devices` (nothing is
destroyed or cleared first). -/
def Song.devicelistListener (s : SongState) (args : List Val) :
    SongState × List OutMsg :=
  let entries := pairsOf args
  ({ s with devices :=
      s.devices ++ entries.map (fun p => Device.init 0 p.1 ("master") p.2) },
   (entries.map (fun p => Device.initMsgs 0 p.1 ("master"))).flatten)

/-- `Song.prototype.refresh`: emit the refresh event, destroy every
track, return and master device and clear the three collections, then
re-request counts, master volume and pan, tempo and the master device
list.  The delayed `/live/time` probe sent after `waitTime` is outside
this embedding of the immediate effects. -/
def Song.refresh (s : SongState) : SongState × List Event × List OutMsg :=
  ({ s with tracks := [], returns := [], devices := [] },
   [⟨Tier.globalE, "refresh", []⟩],
   [⟨"/live/tracks", []⟩, ⟨"/live/returns", []⟩, ⟨"/live/master/volume", []⟩,
    ⟨"/live/master/pan", []⟩, ⟨"/live/tempo", []⟩, ⟨"/live/master/devicelist", []⟩])

/-- The state of a freshly constructed Song before its initial
`refresh()` call runs. -/
def Song.initFields : SongState :=
  { tempo := Val.num 120, tracks := [], returns := [], devices := [],
    volume := Val.num 0, pan := Val.num 0, scene := Val.num 0,
    beat := Val.num 0, playing := Val.num 1 }

/-- A constructed Song: the initial fields with the constructor-time
`refresh()` applied (it emits the refresh requests; the collections are
already empty). -/
def Song.init : SongState :=
  (Song.refresh Song.initFields).1

/-- Dispatch of one inbound message to the listeners the Song registers,
by address. -/
def Song.deliver (s : SongState) (m : OscMsg) : SongState × List Event × List OutMsg :=
  match m.addr with
  | "/live/play" =>
    let o := Song.playListener s (argv m.args 0)
    (o.1, o.2, [])
  | "/live/beat" =>
    let o := Song.beatListener s (argv m.args 0)
    (o.1, o.2, [])
  | "/live/tempo" =>
    let o := Song.tempoListener s (argv m.args 0)
    (o.1, o.2, [])
  | "/live/scene" =>
    let o := Song.sceneListener s (argv m.args 0)
    (o.1, o.2, [])
  | "/live/master/volume" =>
    let o := Song.volumeListener s (argv m.args 0)
    (o.1, o.2, [])
  | "/live/master/pan" =>
    let o := Song.panListener s (argv m.args 0)
    (o.1, o.2, [])
  | "/live/tracks" =>
    let o := Song.tracksListener s (argv m.args 0)
    (o.1, [], o.2)
  | "/live/returns" =>
    let o := Song.returnsListener s (argv m.args 0)
    (o.1, [], o.2)
  | "/live/scenes" =>
    let o := Song.scenesListener s (argv m.args 0)
    (o.1, [], o.2)
  | "/live/master/devicelist" =>
    let o := Song.devicelistListener s m.args
    (o.1, [], o.2)
  | "/remix/oscserver/startup" => Song.refresh s
  | "/remix/oscserver/shutdown" => Song.refresh s
  | "/live/refresh" => Song.refresh s
  | "/live/time" => (s, [⟨Tier.globalE, "ready", []⟩], [])
  | _ => (s, [], [])

/-- Deliver a list of messages in order to the Song listeners, keeping
only the final state. -/
def Song.run (s : SongState) : List OscMsg → SongState
  | [] => s
  | m :: rest => Song.run (Song.deliver s m).1 rest

/-- `Song.prototype.stop`. -/
def Song.stop (s : SongState) : SongState × List OutMsg :=
  (s, [⟨"/live/stop", []⟩])

/-- `Song.prototype.play`. -/
def Song.play (s : SongState) : SongState × List OutMsg :=
  (s, [⟨"/live/play", []⟩])

/-- `Song.prototype.view`: focus the master track. -/
def Song.view (s : SongState) : SongState × List OutMsg :=
  (s, [⟨"/live/master/view", []⟩])

/-- `Song.prototype.playScene`. -/
def Song.playScene (s : SongState) (scene : Val) : SongState × List OutMsg :=
  (s, [⟨"/live/scene", [⟨"integer", scene⟩]⟩])

/-- `Song.prototype.setVolume`. -/
def Song.setVolume (s : SongState) (volume : Val) : SongState × List OutMsg :=
  (s, [⟨"/live/master/volume", [⟨"float", volume⟩]⟩])

/-- `Song.prototype.setPan`. -/
def Song.setPan (s : SongState) (pan : Val) : SongState × List OutMsg :=
  (s, [⟨"/live/master/pan", [⟨"float", pan⟩]⟩])

/-- `Song.prototype.setTempo`. -/
def Song.setTempo (s : SongState) (tempo : Val) : SongState × List OutMsg :=
  (s, [⟨"/live/tempo", [⟨"float", tempo⟩]⟩])

/-! ## Concrete instances used by the claim theorems -/

/-- A freshly built return with id 0, used to exercise the destroy
lifecycle. -/
def returnC1 : ReturnState := Return.init 0

/-- A devicelist notification addressed to return 0 carrying one
device. -/
def msgC1 : OscMsg := ⟨"/live/return/devicelist", [Val.num 0, Val.num 0, Val.str "Reverb"]⟩

/-- A freshly built return with id 0 (volume 0), receiver of the volume
notification. -/
def returnC2 : ReturnState := Return.init 0

/-- A freshly built track with id 0. -/
def trackC3 : TrackState := Track.init 0

/-- A devicelist notification addressed to track 0 carrying one
device. -/
def argsC3 : List Val := [Val.num 0, Val.num 0, Val.str "Compressor"]

/-- The track after the same devicelist notification was handled
twice. -/
def trackC3b : TrackState :=
  (Track.devicelistListener (Track.devicelistListener trackC3 argsC3).1 argsC3).1

/-- The output of `/live/track/info` with arm/solo/mute/audio 1, volume
5 and pan 3 handled by a fresh track 0 whose fields are all 0. -/
def infoC4 : TrackState × List Event × List OutMsg :=
  Track.trackinfoListener (Track.init 0) (Val.num 0) (Val.num 1) (Val.num 1)
    (Val.num 1) (Val.num 1) (Val.num 5) (Val.num 3)

/-- The output of `/live/return/info` with solo/mute 1, volume 5 and
pan 3 handled by a fresh return 0. -/
def infoC4r : ReturnState × List Event :=
  Return.infoListener (Return.init 0) (Val.num 0) (Val.num 1) (Val.num 1)
    (Val.num 5) (Val.num 3)

/-- A track device with one parameter named Gain at index 0 (as an
allparam dump would leave it). -/
def deviceC5 : DeviceState :=
  (Device.allParamListener (Device.init 0 (Val.num 0) ("track") (Val.str "D"))
    [Val.num 0, Val.num 0, Val.num 0, Val.num 1, Val.str "Gain"]).1

/-- A fresh track device 0 on track 0. -/
def deviceC6 : DeviceState := Device.init 0 (Val.num 0) ("track") (Val.str "D")

/-- An allparam batch for track 0, device 0, one triple: index 0, value
9, name Gain. -/
def batchC6 : List Val := [Val.num 0, Val.num 0, Val.num 0, Val.num 9, Val.str "Gain"]

/-- The device after the batch was handled once: parameter 0 stores
value 0.5. -/
def deviceC6b : DeviceState := (Device.allParamListener deviceC6 batchC6).1

/-- The round-trip replies of the scenario: 2 tracks, 1 return, 4
scenes, master volume 0.8, tempo 126. -/
def msgsC7 : List OscMsg :=
  [⟨"/live/tracks", [Val.num 2]⟩, ⟨"/live/returns", [Val.num 1]⟩,
   ⟨"/live/scenes", [Val.num 4]⟩, ⟨"/live/master/volume", [Val.num (4/5)]⟩,
   ⟨"/live/tempo", [Val.num 126]⟩]

/-- The song state after the round-trip replies. -/
def songC7 : SongState := Song.run Song.init msgsC7

/-- A track used by the identity-filter witness. -/
def trackC8 : TrackState := Track.init 3

/-- A device used by the view witness. -/
def deviceC10 : DeviceState := Device.init 2 (Val.num 5) ("track") (Val.str "EQ")

/-- Number of events emitted on the entity-local emitter. -/
def localCount (evs : List Event) : Nat :=
  (evs.filter (fun e => decide (e.tier = Tier.localE))).length

/-- Number of events re-emitted on the song-wide global sink. -/
def globalCount (evs : List Event) : Nat :=
  (evs.filter (fun e => decide (e.tier = Tier.globalE))).length

/-- The changed-triple test of the allparam loop against a given
parameter table: the received value differs from the stored one. -/
def changedIn (params : List (Val × ParamEntry)) (tr : Val × Val × Val) : Bool :=
  decide ((aGet ParamEntry.empty params tr.1).pvalue ≠ tr.2.1)

/-- The parameter-table entry of deviceC5 holding the Gain
parameter. -/
def entryC5 : Val × ParamEntry :=
  (Val.num 0, ⟨Val.num 0, Val.num 1, Val.str "Gain", Val.undef, Val.undef⟩)

/-! ## Helper lemmas about the sparse-array operations and the batch
loops -/

/-- Reading back the key just written. -/
theorem aGet_aSet_self {α : Type} (dflt : α) (l : List (Val × α)) (k : Val) (v : α) :
    aGet dflt (aSet l k v) k = v := by
  induction l with
  | nil => simp [aGet, aSet]
  | cons e rest ih =>
    by_cases h : e.1 = k
    · simp [aGet, aSet, h]
    · simp [aGet, aSet, h, ih]

/-- Writing one key leaves every other key unchanged. -/
theorem aGet_aSet_ne {α : Type} (dflt : α) (l : List (Val × α)) (k k2 : Val) (v : α)
    (h : k2 ≠ k) : aGet dflt (aSet l k v) k2 = aGet dflt l k2 := by
  induction l with
  | nil => simp [aGet, aSet, Ne.symm h]
  | cons e rest ih =>
    by_cases he : e.1 = k
    · subst he
      simp [aGet, aSet, Ne.symm h]
    · by_cases he2 : e.1 = k2
      · simp [aGet, aSet, he, he2, h]
      · simp [aGet, aSet, he, he2, ih]

/-- The track send loop emits exactly one local event per
`sendNum,sendVal` pair. -/
theorem Track.sendLoop_local_len (l : List (Val × Val)) (t : TrackState) :
    localCount (Track.sendLoop t l).2 = l.length := by
  induction l generalizing t with
  | nil => rfl
  | cons p rest ih =>
    obtain ⟨n, v⟩ := p
    simp [Track.sendLoop, Track.emitEvent, emitPair, localCount,
      List.filter_append] at ih ⊢
    exact ih _

/-- The track send loop emits exactly one global event per pair. -/
theorem Track.sendLoop_global_len (l : List (Val × Val)) (t : TrackState) :
    globalCount (Track.sendLoop t l).2 = l.length := by
  induction l generalizing t with
  | nil => rfl
  | cons p rest ih =>
    obtain ⟨n, v⟩ := p
    simp [Track.sendLoop, Track.emitEvent, emitPair, globalCount,
      List.filter_append] at ih ⊢
    exact ih _

/-- The track send loop leaves the level at a key it does not visit
unchanged. -/
theorem Track.sendLoop_preserve (l : List (Val × Val)) (t : TrackState) (k : Val)
    (h : k ∉ l.map Prod.fst) :
    aGet Val.undef (Track.sendLoop t l).1.sends k = aGet Val.undef t.sends k := by
  induction l generalizing t with
  | nil => rfl
  | cons p rest ih =>
    obtain ⟨n, v⟩ := p
    simp only [List.map_cons, List.mem_cons, not_or] at h
    rw [Track.sendLoop]
    simp only []
    rw [ih _ h.2]
    simp [aGet_aSet_ne _ _ _ _ _ h.1]

/-- After the track send loop, any visited key of a batch with distinct
keys stores its value from the batch. -/
theorem Track.sendLoop_mem (l : List (Val × Val)) (t : TrackState) (n v : Val)
    (hnd : (l.map Prod.fst).Nodup) (hm : (n, v) ∈ l) :
    aGet Val.undef (Track.sendLoop t l).1.sends n = v := by
  induction l generalizing t with
  | nil => cases hm
  | cons p rest ih =>
    obtain ⟨m, w⟩ := p
    simp only [List.map_cons, List.nodup_cons] at hnd
    rcases List.mem_cons.mp hm with hh | hh
    · cases hh
      rw [Track.sendLoop]
      simp only []
      rw [Track.sendLoop_preserve _ _ _ hnd.1]
      exact aGet_aSet_self _ _ _ _
    · exact ih _ hnd.2 hh

/-- Counting with two pointwise-equal predicates gives the same count. -/
theorem countP_eq_of_forall {α : Type} (l : List α) (p q : α → Bool)
    (h : ∀ a ∈ l, p a = q a) : l.countP p = l.countP q := by
  induction l with
  | nil => rfl
  | cons a rest ih =>
    rw [List.countP_cons, List.countP_cons, h a (List.mem_cons_self a rest),
      ih (fun b hb => h b (List.mem_cons_of_mem a hb))]

/-- The allparam loop over a batch with distinct indices emits two local
events (the generic `param` event and the named event) per triple whose
value differs from the stored one, and none for the others. -/
theorem Device.allParamLoop_local_len (l : List (Val × Val × Val)) (d : DeviceState)
    (hnd : (l.map Prod.fst).Nodup) :
    localCount (Device.allParamLoop d l).2 = 2 * l.countP (changedIn d.params) := by
  induction l generalizing d with
  | nil => rfl
  | cons tr rest ih =>
    obtain ⟨i, v, nm⟩ := tr
    simp only [List.map_cons, List.nodup_cons] at hnd
    rw [Device.allParamLoop]
    simp only [List.countP_cons]
    have hcong : rest.countP (changedIn (Device.allParamStep d (i, v, nm)).1.params) =
        rest.countP (changedIn d.params) := by
      apply countP_eq_of_forall
      intro tr2 htr2
      have hne : tr2.1 ≠ i := by
        intro hEq
        exact hnd.1 (hEq ▸ List.mem_map_of_mem Prod.fst htr2)
      simp [changedIn, Device.allParamStep, aGet_aSet_ne _ _ _ _ _ hne]
    by_cases hch : changedIn d.params (i, v, nm)
    · have hv : (aGet ParamEntry.empty d.params i).pvalue ≠ v := by
        simpa [changedIn] using hch
      simp only [localCount, List.filter_append] at ih ⊢
      rw [List.length_append]
      have := ih (Device.allParamStep d (i, v, nm)).1 hnd.2
      simp only [localCount] at this
      rw [this, hcong, hch]
      simp [Device.allParamStep, hv, Device.emitEvent, localCount,
        Nat.mul_add, Nat.add_comm]
    · have hv : ¬ (aGet ParamEntry.empty d.params i).pvalue ≠ v := by
        simpa [changedIn] using hch
      simp only [localCount, List.filter_append] at ih ⊢
      rw [List.length_append]
      have := ih (Device.allParamStep d (i, v, nm)).1 hnd.2
      simp only [localCount] at this
      rw [this, hcong]
      have hch2 : changedIn d.params (i, v, nm) = false := by
        simpa using hch
      rw [hch2]
      simp [Device.allParamStep, hv]

/-- The allparam loop leaves the entry at an unvisited index
unchanged. -/
theorem Device.allParamLoop_preserve (l : List (Val × Val × Val)) (d : DeviceState)
    (k : Val) (h : k ∉ l.map Prod.fst) :
    aGet ParamEntry.empty (Device.allParamLoop d l).1.params k =
      aGet ParamEntry.empty d.params k := by
  induction l generalizing d with
  | nil => rfl
  | cons tr rest ih =>
    obtain ⟨i, v, nm⟩ := tr
    simp only [List.map_cons, List.mem_cons, not_or] at h
    rw [Device.allParamLoop]
    simp only []
    rw [ih _ h.2]
    simp [Device.allParamStep, aGet_aSet_ne _ _ _ _ _ h.1]

/-- After the allparam loop over a batch with distinct indices, the
entry at every index of the batch stores the received value (and its
received name and id). -/
theorem Device.allParamLoop_mem (l : List (Val × Val × Val)) (d : DeviceState)
    (i v nm : Val) (hnd : (l.map Prod.fst).Nodup) (hm : (i, v, nm) ∈ l) :
    (aGet ParamEntry.empty (Device.allParamLoop d l).1.params i).pvalue = v ∧
    (aGet ParamEntry.empty (Device.allParamLoop d l).1.params i).pname = nm ∧
    (aGet ParamEntry.empty (Device.allParamLoop d l).1.params i).pid = i := by
  induction l generalizing d with
  | nil => cases hm
  | cons tr rest ih =>
    obtain ⟨j, w, mm⟩ := tr
    simp only [List.map_cons, List.nodup_cons] at hnd
    rcases List.mem_cons.mp hm with hh | hh
    · cases hh
      rw [Device.allParamLoop]
      simp only []
      rw [Device.allParamLoop_preserve _ _ _ hnd.1]
      simp [Device.allParamStep, aGet_aSet_self]
    · exact ih _ hnd.2 hh

/-- The return send loop emits exactly one local event per pair. -/
theorem Return.sendLoop_local_len_r (l : List (Val × Val)) (r : ReturnState) :
    localCount (Return.sendLoop r l).2 = l.length := by
  induction l generalizing r with
  | nil => rfl
  | cons p rest ih =>
    obtain ⟨n, v⟩ := p
    simp [Return.sendLoop, Return.emitEvent, emitPair, localCount,
      List.filter_append] at ih ⊢
    exact ih _

/-- The return send loop emits exactly one global event per pair. -/
theorem Return.sendLoop_global_len_r (l : List (Val × Val)) (r : ReturnState) :
    globalCount (Return.sendLoop r l).2 = l.length := by
  induction l generalizing r with
  | nil => rfl
  | cons p rest ih =>
    obtain ⟨n, v⟩ := p
    simp [Return.sendLoop, Return.emitEvent, emitPair, globalCount,
      List.filter_append] at ih ⊢
    exact ih _

/-- The return send loop leaves the level at an unvisited key
unchanged. -/
theorem Return.sendLoop_preserve_r (l : List (Val × Val)) (r : ReturnState) (k : Val)
    (h : k ∉ l.map Prod.fst) :
    aGet Val.undef (Return.sendLoop r l).1.sends k = aGet Val.undef r.sends k := by
  induction l generalizing r with
  | nil => rfl
  | cons p rest ih =>
    obtain ⟨n, v⟩ := p
    simp only [List.map_cons, List.mem_cons, not_or] at h
    rw [Return.sendLoop]
    simp only []
    rw [ih _ h.2]
    simp [aGet_aSet_ne _ _ _ _ _ h.1]

/-- After the return send loop, any visited key of a batch with
distinct keys stores its value from the batch. -/
theorem Return.sendLoop_mem_r (l : List (Val × Val)) (r : ReturnState) (n v : Val)
    (hnd : (l.map Prod.fst).Nodup) (hm : (n, v) ∈ l) :
    aGet Val.undef (Return.sendLoop r l).1.sends n = v := by
  induction l generalizing r with
  | nil => cases hm
  | cons p rest ih =>
    obtain ⟨m, w⟩ := p
    simp only [List.map_cons, List.nodup_cons] at hnd
    rcases List.mem_cons.mp hm with hh | hh
    · cases hh
      rw [Return.sendLoop]
      simp only []
      rw [Return.sendLoop_preserve_r _ _ _ hnd.1]
      exact aGet_aSet_self _ _ _ _
    · exact ih _ hnd.2 hh

/-- The two-stage clip filter fails as soon as either identity argument
differs. -/
theorem Clip.matches_eq_false (c : ClipState) (trackId clipId : Val)
    (h : trackId ≠ Val.num c.trackId ∨ clipId ≠ Val.num c.id) :
    Clip.matches c trackId clipId = false := by
  rcases h with h | h <;> simp [Clip.matches, h]

/-- The device identity filter rejects a message whose leading track id
differs (non-master device). -/
theorem Device.stripIdent_none_track (d : DeviceState) (args : List Val)
    (h1 : d.type ≠ "master") (h2 : argv args 0 ≠ Val.num d.trackId) :
    Device.stripIdent d args = none := by
  simp [Device.stripIdent, h1, h2]

/-- The device identity filter rejects a message whose device id
argument differs (non-master device). -/
theorem Device.stripIdent_none_device (d : DeviceState) (args : List Val)
    (h1 : d.type ≠ "master") (h2 : argv (args.drop 1) 0 ≠ d.id) :
    Device.stripIdent d args = none := by
  by_cases h3 : argv args 0 = Val.num d.trackId
  · rw [List.drop_one] at h2
    simp [Device.stripIdent, h1, h3, h2]
  · simp [Device.stripIdent, h1, h3]

/-! ## The claims -/

/-- Claim C1.  The claim states that for every entity kind, destroy
removes every transport subscription the entity registered, after which
no handler of the entity fires and its mirrored state no longer changes.
That holds for Track, Clip and Device, but the Return destroy body
removes the devicelist listener from the misspelled address
`/live/return/devlicelist`: the `/live/return/devicelist` subscription
survives, and a matching devicelist message delivered after destroy
still runs the destroyed return instance and appends a device to its
mirrored state. -/
theorem claimC1_return_destroy_misses_devicelist :
  remainingSubs Track.registrations Track.destroyRemovals = [] ∧
  remainingSubs Clip.registrations Clip.destroyRemovals = [] ∧
  remainingSubs (Device.registrations ("track")) (Device.destroyRemovals ("track")) = [] ∧
  remainingSubs (Device.registrations ("return")) (Device.destroyRemovals ("return")) = [] ∧
  remainingSubs (Device.registrations ("master")) (Device.destroyRemovals ("master")) = [] ∧
  remainingSubs Return.registrations Return.destroyRemovals = ["/live/return/devicelist"] ∧
  returnC1.devices.length = 0 ∧
  (Return.deliver (remainingSubs Return.registrations Return.destroyRemovals)
    returnC1 msgC1).1.devices.length = 1 := by
  decide

/-- Claim C2.  The claim states that every tracked-field notification
emits one local and one global event whose `prev` is the value stored
immediately before the update, the field being updated only after the
emit.  The Return volume listener (and pan listener) assigns the field
first: a fresh return 0 with stored volume 0 receiving volume 7 emits
local and global events whose `prev` is 7, the new value, not 0.  The
Track volume listener, by contrast, emits the correct `prev` 0. -/
theorem claimC2_return_volume_prev_equals_new :
  returnC2.volume = Val.num 0 ∧
  (Return.volumeListener returnC2 (Val.num 0) (Val.num 7)).2 =
    [⟨Tier.localE, "volume", [("value", Val.num 7), ("prev", Val.num 7)]⟩,
     ⟨Tier.globalE, "return:volume",
       [("id", Val.num 0), ("value", Val.num 7), ("prev", Val.num 7)]⟩] ∧
  (Track.volumeListener (Track.init 0) (Val.num 0) (Val.num 7)).2 =
    [⟨Tier.localE, "volume", [("value", Val.num 7), ("prev", Val.num 0)]⟩,
     ⟨Tier.globalE, "track:volume",
       [("id", Val.num 0), ("value", Val.num 7), ("prev", Val.num 0)]⟩] := by
  decide

/-- Claim C3.  The claim states that every rebuild path destroys the old
occupant of a (parent, index) slot before or while constructing its
replacement.  In the track devicelist listener the destroy loop iterates
`this.devices` with `this` bound to the receiver, so it destroys nothing
and clears nothing of the track: after the same one-device devicelist
message is handled twice, track 0 holds two live (never destroyed)
devices with the same device id 0.  The return devicelist listener has
no destroy step at all and shows the same duplication. -/
theorem claimC3_devicelist_rebuild_keeps_old_devices :
  trackC3b.devices.length = 2 ∧
  trackC3b.devices.map (fun d => d.id) = [Val.num 0, Val.num 0] ∧
  trackC3b.devices.all (fun d => !d.destroyed) = true ∧
  (Return.devicelistListener (Return.devicelistListener (Return.init 0)
    argsC3).1 argsC3).1.devices.length = 2 := by
  decide

/-- Claim C4.  The claim states that an info notification fans out into
one event per bundled field carrying the pre-message stored value as
prev, and that afterwards each stored field equals the received value.
On `/live/track/info (0, arm 1, solo 1, mute 1, audio 1, volume 5,
pan 3)` handled by a fresh track 0: no event is emitted for `audio`; the
arm/solo/mute events carry prev 1 (the new value: the fields are
assigned before the emits); and the stored volume and pan remain 0
because `this.volume` and `this.pan` write to the receiver.  The return
info listener shows the same divergences for solo/mute/volume/pan. -/
theorem claimC4_info_fanout_divergences :
  ((infoC4.2.1.filter (fun e => decide (e.tier = Tier.localE))).map (fun e => e.name) =
    ["arm", "solo", "mute", "volume", "pan"]) ∧
  ((infoC4.2.1.filter (fun e => decide (e.tier = Tier.localE))).map (fun e => e.payload) =
    [[("value", Val.num 1), ("prev", Val.num 1)],
     [("value", Val.num 1), ("prev", Val.num 1)],
     [("value", Val.num 1), ("prev", Val.num 1)],
     [("value", Val.num 5), ("prev", Val.num 0)],
     [("value", Val.num 3), ("prev", Val.num 0)]]) ∧
  infoC4.1.arm = Val.num 1 ∧ infoC4.1.volume = Val.num 0 ∧ infoC4.1.pan = Val.num 0 ∧
  infoC4r.1.solo = Val.num 1 ∧ infoC4r.1.volume = Val.num 0 ∧ infoC4r.1.pan = Val.num 0 ∧
  ((infoC4r.2.filter (fun e => decide (e.tier = Tier.localE))).map (fun e => e.payload) =
    [[("value", Val.num 1), ("prev", Val.num 1)],
     [("value", Val.num 1), ("prev", Val.num 1)],
     [("value", Val.num 5), ("prev", Val.num 0)],
     [("value", Val.num 3), ("prev", Val.num 0)]]) := by
  decide

/-- Claim C5.  Setting a device parameter by a string name that matches
no entry of the current parameter table throws the identifiable error
and sends nothing; a name that matches an entry resolves to that entry's
id and sends exactly one message to the device-set address carrying the
resolved id and the value. -/
theorem claimC5_set_param_by_name :
  (∀ d s v, d.params.find? (fun e => decide (e.2.pname = Val.str s)) = none →
    Device.set d (Val.str s) v = (d, [], some ("No parameter with name " ++ s))) ∧
  (∀ d s v pe, d.params.find? (fun e => decide (e.2.pname = Val.str s)) = some pe →
    Device.set d (Val.str s) v =
      (d, [⟨Device.setAddr d.type,
        Device.identArgs d ++ [⟨"integer", pe.2.pid⟩, ⟨"integer", v⟩]⟩], none)) := by
  constructor
  · intro d s v h
    simp [Device.set, h]
  · intro d s v pe h
    simp [Device.set, h]

theorem claimC5_witness :
  Device.set deviceC5 (Val.str "Missing") (Val.num 2) =
    (deviceC5, [], some ("No parameter with name Missing")) ∧
  Device.set deviceC5 (Val.str "Gain") (Val.num 2) =
    (deviceC5, [⟨Device.setAddr deviceC5.type,
      Device.identArgs deviceC5 ++
        [⟨"integer", entryC5.2.pid⟩, ⟨"integer", Val.num 2⟩]⟩], none) :=
  ⟨claimC5_set_param_by_name.1 deviceC5 ("Missing") (Val.num 2) (by decide),
   claimC5_set_param_by_name.2 deviceC5 ("Gain") (Val.num 2) entryC5 (by decide)⟩

theorem claimC7_round_trip :
  songC7.tracks.length = 2 ∧
  songC7.tracks.map (fun t => t.numScenes) = [Val.num 4, Val.num 4] ∧
  songC7.tracks.map (fun t => t.clips.length) = [4, 4] ∧
  songC7.returns.length = 1 ∧
  songC7.volume = Val.num (4/5) ∧
  songC7.tempo = Val.num 126 :=
  ⟨rfl, rfl, rfl, rfl, rfl, rfl⟩

theorem claimC6_counterexample :
  Device.stripIdent deviceC6b batchC6 = some (batchC6.drop 2) ∧
  (triplesOf (batchC6.drop 2)).length = 1 ∧
  (Device.allParamListener deviceC6b batchC6).2 = [] := by
  decide

/-- Claim C6, amended.  A `/live/send` or `/live/return/send` batch
addressed to a matching entity emits one discrete local and global event
per `index,value` pair, and (for distinct indices) each index stores its
received value.  A `/live/device/allparam` batch with distinct indices
emits two discrete local events (the generic `param` event and the named
event) per triple whose received value differs from the stored one and
none for an unchanged triple, and each index stores its received value.
A `/live/device/param` message applies exactly its first
`index,value,name` triple, emitting its two events unconditionally. -/
theorem claimC6_amended_stride_batches :
  (∀ t rest, localCount (Track.sendListener t (Val.num t.id :: rest)).2 = (pairsOf rest).length ∧
    globalCount (Track.sendListener t (Val.num t.id :: rest)).2 = (pairsOf rest).length) ∧
  (∀ t rest n v, ((pairsOf rest).map Prod.fst).Nodup → (n, v) ∈ pairsOf rest →
    aGet Val.undef (Track.sendListener t (Val.num t.id :: rest)).1.sends n = v) ∧
  (∀ r rest, localCount (Return.sendListener r (Val.num r.id :: rest)).2 = (pairsOf rest).length ∧
    globalCount (Return.sendListener r (Val.num r.id :: rest)).2 = (pairsOf rest).length) ∧
  (∀ r rest n v, ((pairsOf rest).map Prod.fst).Nodup → (n, v) ∈ pairsOf rest →
    aGet Val.undef (Return.sendListener r (Val.num r.id :: rest)).1.sends n = v) ∧
  (∀ d args rest, Device.stripIdent d args = some rest →
    ((triplesOf rest).map Prod.fst).Nodup →
    localCount (Device.allParamListener d args).2 =
      2 * (triplesOf rest).countP (changedIn d.params)) ∧
  (∀ d args rest i v nm, Device.stripIdent d args = some rest →
    ((triplesOf rest).map Prod.fst).Nodup → (i, v, nm) ∈ triplesOf rest →
    (aGet ParamEntry.empty (Device.allParamListener d args).1.params i).pvalue = v) ∧
  (∀ d args rest, Device.stripIdent d args = some rest →
    localCount (Device.paramListener d args).2 = 2 ∧
    (aGet ParamEntry.empty (Device.paramListener d args).1.params (argv rest 0)).pvalue =
      argv rest 1) := by
  refine ⟨?_, ?_, ?_, ?_, ?_, ?_, ?_⟩
  · intro t rest
    constructor
    · simp [Track.sendListener, Track.sendLoop_local_len]
    · simp [Track.sendListener, Track.sendLoop_global_len]
  · intro t rest n v hnd hm
    simp only [Track.sendListener, if_pos rfl]
    exact Track.sendLoop_mem _ _ _ _ hnd hm
  · intro r rest
    constructor
    · simp [Return.sendListener, Return.sendLoop_local_len_r]
    · simp [Return.sendListener, Return.sendLoop_global_len_r]
  · intro r rest n v hnd hm
    simp only [Return.sendListener, if_pos rfl]
    exact Return.sendLoop_mem_r _ _ _ _ hnd hm
  · intro d args rest h hnd
    simp only [Device.allParamListener, h]
    exact Device.allParamLoop_local_len _ _ hnd
  · intro d args rest i v nm h hnd hm
    simp only [Device.allParamListener, h]
    exact (Device.allParamLoop_mem _ _ _ _ _ hnd hm).1
  · intro d args rest h
    constructor
    · simp [Device.paramListener, h, Device.emitEvent, localCount]
    · simp [Device.paramListener, h, aGet_aSet_self]

theorem claimC6_witness :
  localCount (Device.allParamListener deviceC6 batchC6).2 =
    2 * (triplesOf (batchC6.drop 2)).countP (changedIn deviceC6.params) ∧
  (aGet ParamEntry.empty (Device.allParamListener deviceC6 batchC6).1.params
    (Val.num 0)).pvalue = Val.num 9 ∧
  localCount (Track.sendListener trackC8 (Val.num 3 :: [Val.num 0, Val.num 6])).2 =
    (pairsOf [Val.num 0, Val.num 6]).length := by
  obtain ⟨hts, htm, hrs, hrm, hac, ham, hp⟩ := claimC6_amended_stride_batches
  exact ⟨hac deviceC6 batchC6 (batchC6.drop 2) (by decide) (by decide),
    ham deviceC6 batchC6 (batchC6.drop 2) (Val.num 0) (Val.num 9) (Val.str "Gain")
      (by decide) (by decide) (by decide),
    (hts trackC8 [Val.num 0, Val.num 6]).1⟩

/-- Claim C8.  Every inbound handler of a scoped entity first checks the
leading identity argument(s); on a mismatch it returns with the state
unchanged and no event emitted (and no request sent), never an error.
One conjunct per embedded handler; the device handlers share the
`stripIdent` filter, which rejects a non-master message on a track-id or
a device-id mismatch. -/
theorem claimC8_identity_filter :
  (∀ t a rest, a ≠ Val.num t.id → Track.sendListener t (a :: rest) = (t, [])) ∧
  (∀ t a v, a ≠ Val.num t.id → Track.soloListener t a v = (t, [])) ∧
  (∀ t a v, a ≠ Val.num t.id → Track.armListener t a v = (t, [])) ∧
  (∀ t a v, a ≠ Val.num t.id → Track.muteListener t a v = (t, [])) ∧
  (∀ t a v, a ≠ Val.num t.id → Track.volumeListener t a v = (t, [])) ∧
  (∀ t a v, a ≠ Val.num t.id → Track.panListener t a v = (t, [])) ∧
  (∀ t a v1 v2 v3 v4 v5 v6, a ≠ Val.num t.id →
    Track.trackinfoListener t a v1 v2 v3 v4 v5 v6 = (t, [], [])) ∧
  (∀ t a rest, a ≠ Val.num t.id → Track.devicelistListener t (a :: rest) = (t, [])) ∧
  (∀ t a v, a ≠ Val.num t.id → Track.nameListener t a v = (t, [], [])) ∧
  (∀ r a rest, a ≠ Val.num r.id → Return.sendListener r (a :: rest) = (r, [])) ∧
  (∀ r a v, a ≠ Val.num r.id → Return.soloListener r a v = (r, [])) ∧
  (∀ r a v, a ≠ Val.num r.id → Return.muteListener r a v = (r, [])) ∧
  (∀ r a v, a ≠ Val.num r.id → Return.volumeListener r a v = (r, [])) ∧
  (∀ r a v, a ≠ Val.num r.id → Return.panListener r a v = (r, [])) ∧
  (∀ r a v1 v2 v3 v4, a ≠ Val.num r.id → Return.infoListener r a v1 v2 v3 v4 = (r, [])) ∧
  (∀ r a rest, a ≠ Val.num r.id → Return.devicelistListener r (a :: rest) = (r, [])) ∧
  (∀ r a v, a ≠ Val.num r.id → Return.nameListener r a v = (r, [], [])) ∧
  (∀ c a b v, a ≠ Val.num c.trackId ∨ b ≠ Val.num c.id →
    Clip.loopstartListener c a b v = (c, [])) ∧
  (∀ c a b v, a ≠ Val.num c.trackId ∨ b ≠ Val.num c.id →
    Clip.loopendListener c a b v = (c, [])) ∧
  (∀ c a b v, a ≠ Val.num c.trackId ∨ b ≠ Val.num c.id →
    Clip.loopstateListener c a b v = (c, [])) ∧
  (∀ c a b v, a ≠ Val.num c.trackId ∨ b ≠ Val.num c.id →
    Clip.warpingListener c a b v = (c, [])) ∧
  (∀ c a b v1 v2, a ≠ Val.num c.trackId ∨ b ≠ Val.num c.id →
    Clip.pitchListener c a b v1 v2 = (c, [])) ∧
  (∀ c au a b v1 v2, a ≠ Val.num c.trackId ∨ b ≠ Val.num c.id →
    Clip.clipinfoListener c au a b v1 v2 = (c, [], [])) ∧
  (∀ c a b v, a ≠ Val.num c.trackId ∨ b ≠ Val.num c.id →
    Clip.clipnameListener c a b v = (c, [], [])) ∧
  (∀ d args, Device.stripIdent d args = none →
    Device.rangeListener d args = d ∧
    Device.allParamListener d args = (d, []) ∧
    Device.paramListener d args = (d, [])) ∧
  (∀ d args, d.type ≠ "master" → argv args 0 ≠ Val.num d.trackId →
    Device.stripIdent d args = none) ∧
  (∀ d args, d.type ≠ "master" → argv (args.drop 1) 0 ≠ d.id →
    Device.stripIdent d args = none) := by
  refine ⟨?_, ?_, ?_, ?_, ?_, ?_, ?_, ?_, ?_, ?_, ?_, ?_, ?_, ?_, ?_, ?_, ?_, ?_,
    ?_, ?_, ?_, ?_, ?_, ?_, ?_, ?_, ?_⟩
  · intro t a rest h; simp [Track.sendListener, h]
  · intro t a v h; simp [Track.soloListener, h]
  · intro t a v h; simp [Track.armListener, h]
  · intro t a v h; simp [Track.muteListener, h]
  · intro t a v h; simp [Track.volumeListener, h]
  · intro t a v h; simp [Track.panListener, h]
  · intro t a v1 v2 v3 v4 v5 v6 h; simp [Track.trackinfoListener, h]
  · intro t a rest h; simp [Track.devicelistListener, h]
  · intro t a v h; simp [Track.nameListener, h]
  · intro r a rest h; simp [Return.sendListener, h]
  · intro r a v h; simp [Return.soloListener, h]
  · intro r a v h; simp [Return.muteListener, h]
  · intro r a v h; simp [Return.volumeListener, h]
  · intro r a v h; simp [Return.panListener, h]
  · intro r a v1 v2 v3 v4 h; simp [Return.infoListener, h]
  · intro r a rest h; simp [Return.devicelistListener, h]
  · intro r a v h; simp [Return.nameListener, h]
  · intro c a b v h; simp [Clip.loopstartListener, Clip.matches_eq_false c a b h]
  · intro c a b v h; simp [Clip.loopendListener, Clip.matches_eq_false c a b h]
  · intro c a b v h; simp [Clip.loopstateListener, Clip.matches_eq_false c a b h]
  · intro c a b v h; simp [Clip.warpingListener, Clip.matches_eq_false c a b h]
  · intro c a b v1 v2 h; simp [Clip.pitchListener, Clip.matches_eq_false c a b h]
  · intro c au a b v1 v2 h; simp [Clip.clipinfoListener, Clip.matches_eq_false c a b h]
  · intro c a b v h; simp [Clip.clipnameListener, Clip.matches_eq_false c a b h]
  · intro d args h
    refine ⟨?_, ?_, ?_⟩ <;>
      simp [Device.rangeListener, Device.allParamListener, Device.paramListener, h]
  · intro d args h1 h2
    exact Device.stripIdent_none_track d args h1 h2
  · intro d args h1 h2
    exact Device.stripIdent_none_device d args h1 h2

theorem claimC8_witness :
  Track.soloListener trackC8 (Val.num 99) (Val.num 1) = (trackC8, []) ∧
  Clip.loopstartListener (Clip.init 1 2) (Val.num 0) (Val.num 2) (Val.num 16) =
    (Clip.init 1 2, []) ∧
  Device.paramListener deviceC6 [Val.num 9, Val.num 0, Val.num 0, Val.num 1, Val.str "Gain"] =
    (deviceC6, []) := by
  obtain ⟨h1, h2, h3, h4, h5, h6, h7, h8, h9, h10, h11, h12, h13, h14, h15, h16,
    h17, h18, h19, h20, h21, h22, h23, h24, h25, h26, h27⟩ := claimC8_identity_filter
  exact ⟨h2 trackC8 (Val.num 99) (Val.num 1) (by decide),
    h18 (Clip.init 1 2) (Val.num 0) (Val.num 2) (Val.num 16) (Or.inl (by decide)),
    (h25 deviceC6 [Val.num 9, Val.num 0, Val.num 0, Val.num 1, Val.str "Gain"]
      (by decide)).2.2⟩

/-- Claim C9.  Every outbound mutator is a pure send: it hands exactly
the address and typed argument list below to the transport and returns
every mirrored field unchanged; stored fields change only in the inbound
listeners.  One conjunct per embedded mutator; `Device.set` leaves the
state unchanged for every parameter argument, and for a numeric
parameter id sends the one resolved message. -/
theorem claimC9_mutators_pure_send :
  (∀ t v, Track.setName t v =
    (t, [⟨"/live/name/track", [⟨"integer", Val.num t.id⟩, ⟨"string", v⟩]⟩])) ∧
  (∀ t v, Track.setArm t v =
    (t, [⟨"/live/arm", [⟨"integer", Val.num t.id⟩, ⟨"integer", v⟩]⟩])) ∧
  (∀ t v, Track.setSolo t v =
    (t, [⟨"/live/solo", [⟨"integer", Val.num t.id⟩, ⟨"integer", v⟩]⟩])) ∧
  (∀ t v, Track.setMute t v =
    (t, [⟨"/live/mute", [⟨"integer", Val.num t.id⟩, ⟨"integer", v⟩]⟩])) ∧
  (∀ t v, Track.setVolume t v =
    (t, [⟨"/live/volume", [⟨"integer", Val.num t.id⟩, ⟨"float", v⟩]⟩])) ∧
  (∀ t v, Track.setPan t v =
    (t, [⟨"/live/pan", [⟨"integer", Val.num t.id⟩, ⟨"float", v⟩]⟩])) ∧
  (∀ t s v, Track.setSend t s v =
    (t, [⟨"/live/send", [⟨"integer", Val.num t.id⟩, ⟨"integer", s⟩, ⟨"float", v⟩]⟩])) ∧
  (∀ t, Track.view t = (t, [⟨"/live/track/view", [⟨"integer", Val.num t.id⟩]⟩])) ∧
  (∀ r v, Return.setName r v =
    (r, [⟨"/live/name/return", [⟨"integer", Val.num r.id⟩, ⟨"string", v⟩]⟩])) ∧
  (∀ r v, Return.setSolo r v =
    (r, [⟨"/live/return/solo", [⟨"integer", Val.num r.id⟩, ⟨"integer", v⟩]⟩])) ∧
  (∀ r v, Return.setMute r v =
    (r, [⟨"/live/return/mute", [⟨"integer", Val.num r.id⟩, ⟨"integer", v⟩]⟩])) ∧
  (∀ r v, Return.setVolume r v =
    (r, [⟨"/live/return/volume", [⟨"integer", Val.num r.id⟩, ⟨"float", v⟩]⟩])) ∧
  (∀ r v, Return.setPan r v =
    (r, [⟨"/live/return/pan", [⟨"integer", Val.num r.id⟩, ⟨"float", v⟩]⟩])) ∧
  (∀ r s v, Return.setSend r s v =
    (r, [⟨"/live/return/send",
      [⟨"integer", Val.num r.id⟩, ⟨"integer", s⟩, ⟨"float", v⟩]⟩])) ∧
  (∀ r, Return.view r = (r, [⟨"/live/return/view", [⟨"integer", Val.num r.id⟩]⟩])) ∧
  (∀ c, Clip.play c = (c, [⟨"/live/play/clipslot",
    [⟨"integer", Val.num c.trackId⟩, ⟨"integer", Val.num c.id⟩]⟩])) ∧
  (∀ c, Clip.stop c = (c, [⟨"/live/stop/clip",
    [⟨"integer", Val.num c.trackId⟩, ⟨"integer", Val.num c.id⟩]⟩])) ∧
  (∀ c v, Clip.setName c v = (c, [⟨"/live/name/clip",
    [⟨"integer", Val.num c.trackId⟩, ⟨"integer", Val.num c.id⟩, ⟨"string", v⟩]⟩])) ∧
  (∀ c v1 v2, Clip.setPitch c (Val.num 1) v1 v2 = (c, [⟨"/live/pitch",
    [⟨"integer", Val.num c.trackId⟩, ⟨"integer", Val.num c.id⟩,
     ⟨"integer", v1⟩, ⟨"integer", jsOr0 v2⟩]⟩])) ∧
  (∀ c v, Clip.setLoopstart c v = (c, [⟨"/live/clip/loopstart",
    [⟨"integer", Val.num c.trackId⟩, ⟨"integer", Val.num c.id⟩, ⟨"integer", v⟩]⟩])) ∧
  (∀ c v, Clip.setLoopend c v = (c, [⟨"/live/clip/loopend",
    [⟨"integer", Val.num c.trackId⟩, ⟨"integer", Val.num c.id⟩, ⟨"integer", v⟩]⟩])) ∧
  (∀ c v, Clip.setLoopstate c v = (c, [⟨"/live/clip/loopstate",
    [⟨"integer", Val.num c.trackId⟩, ⟨"integer", Val.num c.id⟩, ⟨"integer", v⟩]⟩])) ∧
  (∀ c v, Clip.setWarping c v = (c, [⟨"/live/clip/warping",
    [⟨"integer", Val.num c.trackId⟩, ⟨"integer", Val.num c.id⟩, ⟨"integer", v⟩]⟩])) ∧
  (∀ c, Clip.view c = (c, [⟨"/live/clip/view", [⟨"integer", Val.num c.id⟩]⟩])) ∧
  (∀ d p v, (Device.set d p v).1 = d) ∧
  (∀ d (q : ℚ) v, Device.set d (Val.num q) v = (d, [⟨Device.setAddr d.type,
    Device.identArgs d ++ [⟨"integer", Val.num q⟩, ⟨"integer", v⟩]⟩], none)) ∧
  (∀ s v, Song.setVolume s v = (s, [⟨"/live/master/volume", [⟨"float", v⟩]⟩])) ∧
  (∀ s v, Song.setPan s v = (s, [⟨"/live/master/pan", [⟨"float", v⟩]⟩])) ∧
  (∀ s v, Song.setTempo s v = (s, [⟨"/live/tempo", [⟨"float", v⟩]⟩])) ∧
  (∀ s v, Song.playScene s v = (s, [⟨"/live/scene", [⟨"integer", v⟩]⟩])) ∧
  (∀ s, Song.play s = (s, [⟨"/live/play", []⟩])) ∧
  (∀ s, Song.stop s = (s, [⟨"/live/stop", []⟩])) ∧
  (∀ s, Song.view s = (s, [⟨"/live/master/view", []⟩])) := by
  refine ⟨fun t v => rfl, fun t v => rfl, fun t v => rfl, fun t v => rfl,
    fun t v => rfl, fun t v => rfl, fun t s v => rfl, fun t => rfl,
    fun r v => rfl, fun r v => rfl, fun r v => rfl, fun r v => rfl,
    fun r v => rfl, fun r s v => rfl, fun r => rfl,
    fun c => rfl, fun c => rfl, fun c v => rfl, fun c v1 v2 => rfl,
    fun c v => rfl, fun c v => rfl, fun c v => rfl, fun c v => rfl, fun c => rfl,
    ?_, fun d q v => rfl,
    fun s v => rfl, fun s v => rfl, fun s v => rfl, fun s v => rfl,
    fun s => rfl, fun s => rfl, fun s => rfl⟩
  intro d p v
  cases p with
  | str s =>
    cases h : d.params.find? (fun e => decide (e.2.pname = Val.str s)) <;>
      simp [Device.set, h]
  | num q => rfl
  | bool b => rfl
  | undef => rfl

/-- Claim C10.  `Device.prototype.view` for a track or return device
sends two integer arguments that are both the device id (the leading one
is not the parent track id); a master device sends one integer, the
device id. -/
theorem claimC10_device_view :
  (∀ d, d.type = "track" →
    Device.view d = ⟨"/live/track/device/view", [⟨"integer", d.id⟩, ⟨"integer", d.id⟩]⟩) ∧
  (∀ d, d.type = "return" →
    Device.view d = ⟨"/live/return/device/view", [⟨"integer", d.id⟩, ⟨"integer", d.id⟩]⟩) ∧
  (∀ d, d.type = "master" →
    Device.view d = ⟨"/live/master/device/view", [⟨"integer", d.id⟩]⟩) := by
  refine ⟨?_, ?_, ?_⟩ <;> intro d h <;> simp only [Device.view, h] <;> rfl

theorem claimC10_witness :
  Device.view deviceC10 =
    ⟨"/live/track/device/view", [⟨"integer", Val.num 5⟩, ⟨"integer", Val.num 5⟩]⟩ :=
  claimC10_device_view.1 deviceC10 rfl
